import Mathlib

/-!
Verification of the Megaska size/coverage recommendation engine
(`src/app/size/recommend/route.ts` and `src/app/api/size/recommend/route.ts`).

Modelling conventions of the shallow embedding:
  - JS numbers are modelled as exact rationals (`Rat`); decimal literals such
    as `2.54` denote the exact rational they print as.
  - An optional JS value (`number | undefined`) is `Option Rat`; JS falsy
    checks on numbers (`!x`) test "absent or zero" (`falsyR`).
  - Optional strings are `Option String`; `x === "lit"` becomes `== some "lit"`.
  - The Supabase insert call follows the supabase-js v2 convention: it never
    rejects, it returns its error as a value, which the handler discards.
    That returned value is the explicit `SbOutcome` parameter of the handler.
-/

/-- A row of the size chart: label plus inclusive (lo, hi) ranges for
bust, waist, hip. From `SIZE_CHART` in `src/app/size/recommend/route.ts`
(centimetres). -/
structure SizeRow where
  label : String
  bustLo : Rat
  bustHi : Rat
  waistLo : Rat
  waistHi : Rat
  hipLo : Rat
  hipHi : Rat
deriving DecidableEq

/-- The five-row chart from `src/app/size/recommend/route.ts` (cm). -/
def SIZE_CHART : List SizeRow :=
  [ ⟨"S", 80, 86, 64, 70, 86, 94⟩,
    ⟨"M", 87, 94, 71, 78, 95, 101⟩,
    ⟨"L", 95, 101, 79, 86, 102, 108⟩,
    ⟨"XL", 102, 108, 87, 94, 109, 115⟩,
    ⟨"XXL", 109, 116, 95, 104, 116, 124⟩ ]

/-- JS falsy test on an optional number: `!x` is true for `undefined` and `0`. -/
def falsyR : Option Rat → Bool
  | none => true
  | some v => v == 0

/-- Midpoint helper, `mid` in the source. -/
def mid (a b : Rat) : Rat := (a + b) / 2

/-- `clampDist` from `pickFromChart`: 0 when absent, distance to the range
when outside, `|v - midpoint| * 0.1` when inside. -/
def clampDist (v : Option Rat) (lo hi : Rat) : Rat :=
  match v with
  | none => 0
  | some x => if x < lo then lo - x else if x > hi then x - hi else |x - mid lo hi| * 0.1

/-- One in-range test of the scoring loop: present and inside the inclusive range. -/
def inRange (v : Option Rat) (lo hi : Rat) : Bool :=
  match v with
  | none => false
  | some x => decide (lo ≤ x) && decide (x ≤ hi)

/-- The per-row score: how many present measurements fall in the row's ranges. -/
def rowScore (b w h : Option Rat) (s : SizeRow) : Nat :=
  (if inRange b s.bustLo s.bustHi then 1 else 0) +
  (if inRange w s.waistLo s.waistHi then 1 else 0) +
  (if inRange h s.hipLo s.hipHi then 1 else 0)

/-- The per-row distance: sum of `clampDist` over the three axes. -/
def rowDist (b w h : Option Rat) (s : SizeRow) : Rat :=
  clampDist b s.bustLo s.bustHi + clampDist w s.waistLo s.waistHi + clampDist h s.hipLo s.hipHi

/-- A candidate as held in the loop variable `best`: label, score, dist. -/
structure Cand where
  label : String
  score : Nat
  dist : Rat
deriving DecidableEq

/-- The candidate the loop body computes for one chart row. -/
def mkCand (b w h : Option Rat) (s : SizeRow) : Cand :=
  ⟨s.label, rowScore b w h s, rowDist b w h s⟩

/-- The source's replacement test:
`cand.score > best.score || (cand.score === best.score && cand.dist < best.dist)`. -/
def betterB (c old : Cand) : Bool :=
  decide (old.score < c.score) || (c.score == old.score && decide (c.dist < old.dist))

/-- One iteration of the `best` update in `pickFromChart`:
`if (!best || better) best = cand`. -/
def chartStep (best : Option Cand) (c : Cand) : Option Cand :=
  match best with
  | none => some c
  | some b => if betterB c b then some c else some b

/-- `pickFromChart` from `src/app/size/recommend/route.ts`: guard
`if (!bust_cm && !waist_cm && !hip_cm) return null` (falsy check), then the
scoring loop, then `return best?.label || null`. -/
def pickFromChart (b w h : Option Rat) : Option String :=
  if falsyR b && falsyR w && falsyR h then none
  else
    match SIZE_CHART.foldl (fun best s => chartStep best (mkCand b w h s)) none with
    | some best => if best.label == "" then none else some best.label
    | none => none

/-- `pickFromChart` from `src/app/api/size/recommend/route.ts` (lines 193-220):
identical loop but the guard is `bustCm == null && waistCm == null && hipCm == null`. -/
def pickFromChartApi (b w h : Option Rat) : Option String :=
  if b.isNone && w.isNone && h.isNone then none
  else
    match SIZE_CHART.foldl (fun best s => chartStep best (mkCand b w h s)) none with
    | some best => if best.label == "" then none else some best.label
    | none => none

/-- `sizeByHW`: `if (!h || !w) return null`, else BMI thresholds. -/
def sizeByHW : Option Rat → Option Rat → Option String
  | some hv, some wv =>
    if hv == 0 || wv == 0 then none
    else
      let bmi := wv / (hv / 100) ^ 2
      some (if bmi < 21 then "S" else if bmi < 24 then "M" else
        if bmi < 27 then "L" else if bmi < 31 then "XL" else "XXL")
  | _, _ => none

/-- `inToCm` from the source: inches times 2.54. -/
def inToCm (i : Rat) : Rat := i * 2.54

/-- `cmToIn` from `src/unnamed/part_000`: centimetres divided by 2.54. -/
def cmToIn (n : Rat) : Rat := n / 2.54

/-- `lbToKg` from `src/unnamed/part_000`: pounds times 0.453592. -/
def lbToKg (n : Rat) : Rat := n * 0.453592

/-- JS `Math.round`: round half towards positive infinity, i.e. the floor
of `x + 1/2`. -/
def jsRound (x : Rat) : Int := (x + 1/2).floor

/-- Result of `parseBra`: band number and cup string, both nullable. -/
structure BraParse where
  band : Option Nat
  cup : Option String
deriving DecidableEq

/-- ASCII uppercase-letter test, the `[A-Z]` class of the bra regex. -/
def isUpperAZ (c : Char) : Bool := decide ('A' ≤ c) && decide (c ≤ 'Z')

/-- Strip all whitespace and uppercase, as in
`bra.replace(/\s+/g,"").toUpperCase()`. -/
def braClean (s : String) : List Char :=
  (s.data.filter (fun c => !c.isWhitespace)).map Char.toUpper

/-- Numeric value of a digit character. -/
def digitVal (c : Char) : Nat := c.toNat - Char.toNat '0'

/-- `parseBra`: `if (!bra) return nulls`; clean the string; match
`^(\d{2})([A-Z]+)$`; band is the two-digit number, cup the letter block. -/
def parseBra : Option String → BraParse
  | none => ⟨none, none⟩
  | some s =>
    match braClean s with
    | d1 :: d2 :: rest =>
      if d1.isDigit && d2.isDigit && !rest.isEmpty && rest.all isUpperAZ then
        ⟨some (10 * digitVal d1 + digitVal d2), some ⟨rest⟩⟩
      else ⟨none, none⟩
    | _ => ⟨none, none⟩

/-- The cup-increment table `{A:2.5, B:5, C:7.5, D:10, DD:12.5, E:12.5, F:15}`
with the `|| 7.5` default for unknown cups (all table values are nonzero, so
the JS `||` only fires on a missing key). -/
def cupInc (cup : String) : Rat :=
  if cup == "A" then 2.5 else if cup == "B" then 5 else if cup == "C" then 7.5
  else if cup == "D" then 10 else if cup == "DD" then 12.5 else if cup == "E" then 12.5
  else if cup == "F" then 15 else 7.5

/-- The bra-based bust estimation block of the POST handler:
`let bust_est = bust_cm; if (!bust_est && bra_band && bra_cup)
bust_est = bra_band * 2.54 + (cupMap[bra_cup] || 7.5) * 2.54`. -/
def bustEstimate (bust_cm : Option Rat) (bp : BraParse) : Option Rat :=
  match bp.band, bp.cup with
  | some band, some cup =>
    if falsyR bust_cm && (band != 0) && (cup != "") then
      some ((band : Rat) * 2.54 + cupInc cup * 2.54)
    else bust_cm
  | _, _ => bust_cm

/-- `chooseCoverage`: the ordered preference/modesty/activity/tummy cascade. -/
def chooseCoverage (activity modesty : Option String) (tummy : Bool)
    (pref : Option String) : String :=
  if pref == some "burkini" then "burkini"
  else if pref == some "swimdress" then "knee length"
  else if pref == some "rashguard" then "one-piece + rash guard"
  else if modesty == some "high" then "burkini"
  else if activity == some "swim_class" || activity == some "aqua_fitness" then
    (if modesty == some "medium" then "knee length" else "one-piece")
  else if tummy then "knee length"
  else "knee length"

/-- The `hints` array built by `fitCopy`, in push order; the three conditions
are precomputed Booleans (tummy flag, `activity === "swim_class"`,
`modesty === "high" || coverage === "burkini"`). -/
def fitHints (t q r : Bool) : List String :=
  (if t then ["tummy-control panels"] else []) ++
  (if q then ["secure shoulder coverage"] else []) ++
  (if r then ["full coverage"] else [])

/-- `fitCopy` from `src/app/api/size/recommend/route.ts`: template with the
optional `" with ..."` clause; sentence reads "For close fit choose". -/
def fitCopy (size coverage : String) (t : Bool) (a m : Option String) : String :=
  let hints := fitHints t (a == some "swim_class") (m == some "high" || coverage == "burkini")
  let extra := if hints.isEmpty then "" else " with " ++ String.intercalate " & " hints
  "We suggest **" ++ size ++ "** in a **" ++ coverage ++ "** style" ++ extra ++
    ". For close fit choose your measured size; for relaxed fit, consider one size up."

/-- `fitCopy` from `src/app/size/recommend/route.ts`: identical except the
closing sentence reads "For close fit, choose" (extra comma). -/
def fitCopySz (size coverage : String) (t : Bool) (a m : Option String) : String :=
  let hints := fitHints t (a == some "swim_class") (m == some "high" || coverage == "burkini")
  let extra := if hints.isEmpty then "" else " with " ++ String.intercalate " & " hints
  "We suggest **" ++ size ++ "** in a **" ++ coverage ++ "** style" ++ extra ++
    ". For close fit, choose your measured size; for relaxed fit, consider one size up."

/-- JS `a || b` on an optional string: a non-empty string is truthy. -/
def jsOrS (a : Option String) (b : String) : String :=
  match a with
  | some s => if s == "" then b else s
  | none => b

/-- The size fallback chain `byChart || byHW || "M"` of the POST handler. -/
def computeSize (be wa hi hc wk : Option Rat) : String :=
  jsOrS (pickFromChart be wa hi) (jsOrS (sizeByHW hc wk) "M")

/-- The raw request body (`BodyIn` in the source); numeric fields optional,
`tummy_control` coerced by `!!` so modelled as Bool. -/
structure BodyIn where
  unit : Option String
  height : Option Rat
  weight : Option Rat
  bust : Option Rat
  waist : Option Rat
  hip : Option Rat
  bra : Option String
  activity : Option String
  modesty : Option String
  tummy_control : Bool
  style_preference : Option String
deriving DecidableEq

/-- `const unit = (body.unit || "metric")`. -/
def normalizedUnit (b : BodyIn) : String :=
  match b.unit with
  | some u => if u == "" then "metric" else u
  | none => "metric"

/-- `height_cm = body.height ? (imperial ? round(inToCm h) : round(h)) : undefined`. -/
def normHeightCm (b : BodyIn) : Option Rat :=
  match b.height with
  | some v =>
    if v == 0 then none
    else some ((jsRound (if normalizedUnit b == "imperial" then inToCm v else v) : Int) : Rat)
  | none => none

/-- `weight_kg = body.weight ? (imperial ? round(w * 0.453592) : round(w)) : undefined`. -/
def normWeightKg (b : BodyIn) : Option Rat :=
  match b.weight with
  | some v =>
    if v == 0 then none
    else some ((jsRound (if normalizedUnit b == "imperial" then v * 0.453592 else v) : Int) : Rat)
  | none => none

/-- `bust_cm = body.bust ? (imperial ? inToCm(bust) : bust) : undefined`. -/
def normBustCm (b : BodyIn) : Option Rat :=
  match b.bust with
  | some v =>
    if v == 0 then none
    else some (if normalizedUnit b == "imperial" then inToCm v else v)
  | none => none

/-- `waist_cm`, same shape as `bust_cm`. -/
def normWaistCm (b : BodyIn) : Option Rat :=
  match b.waist with
  | some v =>
    if v == 0 then none
    else some (if normalizedUnit b == "imperial" then inToCm v else v)
  | none => none

/-- `hip_cm`, same shape as `bust_cm`. -/
def normHipCm (b : BodyIn) : Option Rat :=
  match b.hip with
  | some v =>
    if v == 0 then none
    else some (if normalizedUnit b == "imperial" then inToCm v else v)
  | none => none

/-- The value the Supabase `insert` resolves with, under the supabase-js v2
call convention (errors are returned as values, the promise never rejects);
`skipped` covers the env-guarded variant that does not call the sink at all. -/
inductive SbOutcome
  | success
  | failure (msg : String)
  | skipped
deriving DecidableEq

/-- The JSON payload of the success response: `{ ok, size, coverage, fitNotes }`. -/
structure RecResponse where
  ok : Bool
  size : String
  coverage : String
  fitNotes : String
deriving DecidableEq

/-- Shallow embedding of the POST handler of `src/app/size/recommend/route.ts`:
normalize, estimate bust from the bra if needed, chart lookup, BMI fallback,
final `"M"` default, coverage cascade, fit copy, then the analytics insert whose
returned value (`outcome`) is discarded, and the success response. -/
def POSThandler (b : BodyIn) (outcome : SbOutcome) : RecResponse :=
  let height_cm := normHeightCm b
  let weight_kg := normWeightKg b
  let bust_cm := normBustCm b
  let waist_cm := normWaistCm b
  let hip_cm := normHipCm b
  let bp := parseBra b.bra
  let bust_est := bustEstimate bust_cm bp
  let byChart := pickFromChart bust_est waist_cm hip_cm
  let byHW := sizeByHW height_cm weight_kg
  let size := jsOrS byChart (jsOrS byHW "M")
  let coverage := chooseCoverage b.activity b.modesty b.tummy_control b.style_preference
  let notes := fitCopySz size coverage b.tummy_control b.activity b.modesty
  let _ := outcome
  ⟨true, size, coverage, notes⟩

/-- Request with bust provided as exactly 0. -/
def bodyBustZero : BodyIn :=
  ⟨none, none, none, some 0, none, none, none, none, none, false, none⟩

/-- Request with bust omitted. -/
def bodyBustNone : BodyIn :=
  ⟨none, none, none, none, none, none, none, none, none, false, none⟩

/-- Request with bust 90 (metric). -/
def bodyBust90 : BodyIn :=
  ⟨none, none, none, some 90, none, none, none, none, none, false, none⟩

/-- Request carrying only the bra string "36C". -/
def bodyBra36C : BodyIn :=
  ⟨none, none, none, none, none, none, some "36C", none, none, false, none⟩

/-! ## Specification-side selection rule for the chart lookup

`specBest` is written from the spec's words: scan the rows in table order,
pick the one with the highest score, break ties by the lowest distance, and
let the earliest row win remaining ties (the head is kept unless a later
row is strictly better). -/

/-- Propositional form of "strictly better": higher score, or equal score
and strictly smaller distance. -/
def Better (c old : Cand) : Prop :=
  old.score < c.score ∨ (c.score = old.score ∧ c.dist < old.dist)

lemma betterB_iff {c old : Cand} : betterB c old = true ↔ Better c old := by
  simp [betterB, Better]

lemma better_trans {a b c : Cand} (h1 : Better a b) (h2 : Better b c) : Better a c := by
  rcases h1 with h1 | ⟨e1, d1⟩ <;> rcases h2 with h2 | ⟨e2, d2⟩
  · exact Or.inl (h2.trans h1)
  · exact Or.inl (e2 ▸ h1)
  · exact Or.inl (e1 ▸ h2)
  · exact Or.inr ⟨e1.trans e2, d1.trans d2⟩

lemma not_better_trans {a b c : Cand} (h1 : ¬ Better a b) (h2 : ¬ Better b c) :
    ¬ Better a c := by
  unfold Better at *
  push_neg at h1 h2
  rintro (h | ⟨e, d⟩)
  · omega
  · have hab : a.score ≤ b.score := h1.1
    have hbc : b.score ≤ c.score := h2.1
    have e1 : a.score = b.score := by omega
    have e2 : b.score = c.score := by omega
    have := h1.2 e1
    have := h2.2 e2
    linarith

/-- Keep `old` unless `c` is strictly better; the loop's merge on two candidates. -/
def mergeC (old c : Cand) : Cand := if betterB c old then c else old

/-- Merge a candidate with an optional best-so-far from the right. -/
def mergeOpt (a : Cand) : Option Cand → Cand
  | none => a
  | some q => if betterB q a then q else a

/-- The selection rule, stated from the spec's words: the first row of the
list attaining the maximal score, with ties broken by minimal distance and
remaining ties by earliest position (head kept unless the tail's best is
strictly better). -/
def specBest : List Cand → Option Cand
  | [] => none
  | c :: cs => some (mergeOpt c (specBest cs))

lemma merge_shift (x y : Cand) (o : Option Cand) :
    mergeOpt (mergeC x y) o = mergeOpt x (some (mergeOpt y o)) := by
  cases o with
  | none => simp [mergeOpt, mergeC]
  | some q =>
    by_cases h1 : betterB y x
    · by_cases h2 : betterB q y
      · have hqx : betterB q x = true :=
          betterB_iff.mpr (better_trans (betterB_iff.mp h2) (betterB_iff.mp h1))
        simp [mergeOpt, mergeC, h1, h2, hqx]
      · simp [mergeOpt, mergeC, h1, h2]
    · by_cases h2 : betterB q y
      · simp [mergeOpt, mergeC, h1, h2]
      · have hqx : betterB q x = false := by
          rw [Bool.eq_false_iff]
          intro hc
          exact not_better_trans (fun hq => h2 (betterB_iff.mpr hq))
            (fun hy => h1 (betterB_iff.mpr hy)) (betterB_iff.mp hc)
        simp [mergeOpt, mergeC, h1, h2, hqx]

lemma foldl_mergeC (cs : List Cand) : ∀ x, cs.foldl mergeC x = mergeOpt x (specBest cs) := by
  induction cs with
  | nil => intro x; rfl
  | cons y ys ih =>
    intro x
    show ys.foldl mergeC (mergeC x y) = mergeOpt x (specBest (y :: ys))
    rw [ih (mergeC x y), merge_shift]
    rfl

lemma chartStep_some (x y : Cand) : chartStep (some x) y = some (mergeC x y) := by
  by_cases h : betterB y x <;> simp [chartStep, mergeC, h]

lemma foldl_chartStep_some (cs : List Cand) :
    ∀ x, cs.foldl chartStep (some x) = some (cs.foldl mergeC x) := by
  induction cs with
  | nil => intro x; rfl
  | cons y ys ih =>
    intro x
    show ys.foldl chartStep (chartStep (some x) y) = _
    rw [chartStep_some, ih (mergeC x y)]
    rfl

lemma foldl_chartStep_specBest (c : Cand) (cs : List Cand) :
    (c :: cs).foldl chartStep none = specBest (c :: cs) := by
  show cs.foldl chartStep (some c) = _
  rw [foldl_chartStep_some, foldl_mergeC]
  rfl

lemma specBest_mem : ∀ {cs : List Cand} {c : Cand}, specBest cs = some c → c ∈ cs := by
  intro cs
  induction cs with
  | nil => intro c h; cases h
  | cons y ys ih =>
    intro c h
    simp only [specBest, Option.some.injEq] at h
    subst h
    cases hys : specBest ys with
    | none => simp [mergeOpt, hys]
    | some q =>
      simp only [mergeOpt, hys]
      by_cases hq : betterB q y
      · simp only [hq, if_true]
        exact List.mem_cons_of_mem y (ih hys)
      · simp [hq]

lemma chart_label_ne_empty {s : SizeRow} (hs : s ∈ SIZE_CHART) : s.label ≠ "" := by
  simp only [SIZE_CHART, List.mem_cons, List.not_mem_nil, or_false] at hs
  rcases hs with rfl | rfl | rfl | rfl | rfl <;> decide

/-- The loop body of the source folds over rows; restated as a fold of
`chartStep` over the candidate list. -/
lemma chart_fold_eq (b w h : Option Rat) :
    SIZE_CHART.foldl (fun best s => chartStep best (mkCand b w h s)) none
      = (SIZE_CHART.map (mkCand b w h)).foldl chartStep none := by
  rw [List.foldl_map]

lemma specBest_label_ne_empty {b w h : Option Rat} {c : Cand}
    (hc : specBest (SIZE_CHART.map (mkCand b w h)) = some c) : c.label ≠ "" := by
  have hmem := specBest_mem hc
  rcases List.mem_map.mp hmem with ⟨s, hs, rfl⟩
  exact chart_label_ne_empty hs

/-- Both chart-lookup variants equal their guard followed by the spec-side
selection rule. -/
lemma pick_eq (b w h : Option Rat) :
    pickFromChart b w h =
      (if falsyR b && falsyR w && falsyR h then none
       else Option.map Cand.label (specBest (SIZE_CHART.map (mkCand b w h)))) := by
  unfold pickFromChart
  by_cases hg : (falsyR b && falsyR w && falsyR h : Bool)
  · simp [hg]
  · simp only [hg, Bool.false_eq_true, ite_false, if_neg]
    rw [chart_fold_eq]
    have hshape : SIZE_CHART.map (mkCand b w h)
        = mkCand b w h ⟨"S", 80, 86, 64, 70, 86, 94⟩ ::
          (SIZE_CHART.tail.map (mkCand b w h)) := by
      rfl
    rw [hshape, foldl_chartStep_specBest, ← hshape]
    cases hsb : specBest (SIZE_CHART.map (mkCand b w h)) with
    | none => rfl
    | some c =>
      have hne : c.label ≠ "" := specBest_label_ne_empty hsb
      simp [hne]

lemma pick_eq_api (b w h : Option Rat) :
    pickFromChartApi b w h =
      (if b.isNone && w.isNone && h.isNone then none
       else Option.map Cand.label (specBest (SIZE_CHART.map (mkCand b w h)))) := by
  unfold pickFromChartApi
  by_cases hg : (b.isNone && w.isNone && h.isNone : Bool)
  · simp [hg]
  · simp only [hg, Bool.false_eq_true, ite_false, if_neg]
    rw [chart_fold_eq]
    have hshape : SIZE_CHART.map (mkCand b w h)
        = mkCand b w h ⟨"S", 80, 86, 64, 70, 86, 94⟩ ::
          (SIZE_CHART.tail.map (mkCand b w h)) := by
      rfl
    rw [hshape, foldl_chartStep_specBest, ← hshape]
    cases hsb : specBest (SIZE_CHART.map (mkCand b w h)) with
    | none => rfl
    | some c =>
      have hne : c.label ≠ "" := specBest_label_ne_empty hsb
      simp [hne]

/-! ## Claim theorems -/

/-- Claim C1 (amended). Chart lookup characterization: both `pickFromChart`
variants scan the five chart rows in table order, score each row by the count
of present measurements inside its inclusive ranges, compute the distance
penalty per axis (0 when absent, `low - value` below, `value - high` above,
`|value - midpoint| * 0.1` inside), and return the label of the row with the
highest score, ties broken by lowest distance, remaining ties by earliest row
(`specBest`). The api variant returns null exactly when all three inputs are
absent; the `src/app/size` variant instead uses a JS falsy guard and returns
null exactly when each input is absent or zero. -/
theorem chart_lookup_characterization (b w h : Option Rat) :
    pickFromChart b w h =
      (if falsyR b && falsyR w && falsyR h then none
       else Option.map Cand.label (specBest (SIZE_CHART.map (mkCand b w h))))
    ∧ pickFromChartApi b w h =
      (if b.isNone && w.isNone && h.isNone then none
       else Option.map Cand.label (specBest (SIZE_CHART.map (mkCand b w h)))) :=
  ⟨pick_eq b w h, pick_eq_api b w h⟩

/-- Claim C1 counterexample. With bust provided as exactly 0 (present, not
absent) and the other two absent, `pickFromChart` of
`src/app/size/recommend/route.ts` returns null although not all three inputs
are absent — refuting "returns null exactly when all three are absent". -/
theorem chart_lookup_zero_counterexample :
    pickFromChart (some 0) none none = none ∧ (some (0 : Rat)).isSome = true := by
  constructor
  · rfl
  · rfl

/-- Claim C9 (amended). Whenever at least one of bust, waist, hip is present
with a nonzero value (JS-truthy), `pickFromChart` returns a non-null label,
and consequently the returned size equals that label no matter what the
height/weight heuristic would say — the BMI fallback can influence the size
only when bust, waist and hip are all absent-or-zero. (The unamended claim,
"present" alone, fails: a present zero trips the falsy guard, see the
counterexample.) -/
theorem chart_total_on_truthy_input (b w h : Option Rat)
    (hin : falsyR b = false ∨ falsyR w = false ∨ falsyR h = false) :
    ∃ l, pickFromChart b w h = some l ∧ l ≠ "" ∧
      ∀ hc wk, computeSize b w h hc wk = l := by
  have hguard : (falsyR b && falsyR w && falsyR h) = false := by
    rcases hin with hb | hw | hh
    · simp [hb]
    · simp [hw]
    · simp [hh]
  have hpick := pick_eq b w h
  rw [hguard] at hpick
  simp only [Bool.false_eq_true, ite_false] at hpick
  obtain ⟨c, hsb⟩ : ∃ c, specBest (SIZE_CHART.map (mkCand b w h)) = some c := ⟨_, rfl⟩
  refine ⟨c.label, ?_, specBest_label_ne_empty hsb, ?_⟩
  · rw [hpick, hsb]; rfl
  · intro hc wk
    unfold computeSize
    rw [hpick, hsb]
    simp [jsOrS, specBest_label_ne_empty hsb]

/-- Claim C9 counterexample. A present-but-zero bust (other inputs absent) is
"at least one of bust, waist, hip present", yet `pickFromChart` returns null,
so the unamended totality claim fails on the cited variant. -/
theorem chart_total_zero_counterexample :
    (some (0 : Rat)).isSome = true ∧ pickFromChart (some 0) none none = none := by
  constructor
  · rfl
  · rfl

/-- Claim C9 witness. At bust 100 cm the amended theorem applies: the falsy
test is false, the chart decides, and the BMI inputs are irrelevant. -/
theorem chart_total_on_truthy_input_witness :
    ∃ l, pickFromChart (some 100) none none = some l ∧ l ≠ "" ∧
      ∀ hc wk, computeSize (some 100) none none hc wk = l :=
  chart_total_on_truthy_input (some 100) none none (Or.inl (by decide))

/-- Claim C3. Coverage cascade precedence: the rules are evaluated top to
bottom with first match winning, and an explicit style preference always
overrides modesty and activity — for every activity, modesty and
tummy-control value, preference "burkini" yields "burkini" (in particular
with modesty "low" and activity "beach"), "swimdress" yields "knee length",
and "rashguard" yields "one-piece + rash guard". -/
theorem coverage_preference_overrides (a m : Option String) (t : Bool) :
    chooseCoverage a m t (some "burkini") = "burkini"
    ∧ chooseCoverage a m t (some "swimdress") = "knee length"
    ∧ chooseCoverage a m t (some "rashguard") = "one-piece + rash guard"
    ∧ chooseCoverage (some "beach") (some "low") t (some "burkini") = "burkini" := by
  refine ⟨rfl, ?_, ?_, rfl⟩ <;> rfl

/-- Claim C10. The tummy-control flag never affects the coverage decision:
for every activity, modesty and style preference, `chooseCoverage` returns
the same result with the flag set as with it cleared (the tummy rule and
the final default both produce "knee length"). -/
theorem tummy_never_affects_coverage (a m p : Option String) :
    chooseCoverage a m true p = chooseCoverage a m false p := by
  unfold chooseCoverage
  split_ifs <;> rfl

/-- Claim C8. Unit round-trip: converting any measurement from inches to the
canonical centimetres and back (`cmToIn (inToCm x) = (x * 2.54) / 2.54`)
reproduces the value within ±0.01 (here exactly), and likewise the
kilogram conversion (`lbToKg x / 0.453592`). -/
theorem unit_round_trip (x : Rat) :
    |cmToIn (inToCm x) - x| ≤ 1/100 ∧ |lbToKg x / 0.453592 - x| ≤ 1/100 := by
  have h1 : cmToIn (inToCm x) = x := by
    unfold cmToIn inToCm
    rw [mul_div_assoc, div_self (by norm_num), mul_one]
  have h2 : lbToKg x / 0.453592 = x := by
    unfold lbToKg
    rw [mul_div_assoc, div_self (by norm_num), mul_one]
  rw [h1, h2]
  norm_num

/-- Batteries' `Rat.floor` agrees with the floor of the `FloorRing` instance
(the instance is built from it). -/
lemma ratFloor_eq_intFloor (q : Rat) : q.floor = ⌊q⌋ := rfl

lemma jsRound_165 : jsRound 165 = 165 := by
  unfold jsRound
  rw [ratFloor_eq_intFloor]
  norm_num

lemma jsRound_60 : jsRound 60 = 60 := by
  unfold jsRound
  rw [ratFloor_eq_intFloor]
  norm_num

/-- The BMI threshold map as the spec words it: BMI < 21 gives S, < 24 M,
< 27 L, < 31 XL, else XXL. -/
def bmiLabel (bmi : Rat) : String :=
  if bmi < 21 then "S" else if bmi < 24 then "M" else
  if bmi < 27 then "L" else if bmi < 31 then "XL" else "XXL"

lemma pickFromChart_ne_empty {b w h : Option Rat} {l : String}
    (hl : pickFromChart b w h = some l) : l ≠ "" := by
  rw [pick_eq] at hl
  split at hl
  · cases hl
  · obtain ⟨c, hc, hlab⟩ := Option.map_eq_some'.mp hl
    exact hlab ▸ specBest_label_ne_empty hc

lemma sizeByHW_eq {hv wv : Rat} (h1 : hv ≠ 0) (h2 : wv ≠ 0) :
    sizeByHW (some hv) (some wv) = some (bmiLabel (wv / (hv / 100) ^ 2)) := by
  have e1 : (hv == 0) = false := beq_eq_false_iff_ne.mpr h1
  have e2 : (wv == 0) = false := beq_eq_false_iff_ne.mpr h2
  unfold sizeByHW bmiLabel
  simp [e1, e2]

lemma bmiLabel_ne_empty (bmi : Rat) : bmiLabel bmi ≠ "" := by
  unfold bmiLabel
  split_ifs <;> decide

lemma sizeByHW_165_60 : sizeByHW (some 165) (some 60) = some "M" := by
  rw [sizeByHW_eq (by norm_num) (by norm_num)]
  unfold bmiLabel
  norm_num

lemma pickFromChart_90 : pickFromChart (some 90) none none = some "M" := by
  norm_num [pickFromChart, SIZE_CHART, falsyR, mkCand, rowScore, rowDist, inRange,
    clampDist, mid, betterB, chartStep, List.foldl]
  intro h
  exact absurd h (by decide)

/-- Request with only height 165 cm and weight 60 kg. -/
def bodyHW165_60 : BodyIn :=
  ⟨none, some 165, some 60, none, none, none, none, none, none, false, none⟩

/-- Completely empty request. -/
def bodyEmpty : BodyIn :=
  ⟨none, none, none, none, none, none, none, none, none, false, none⟩

lemma normHeightCm_bodyHW : normHeightCm bodyHW165_60 = some 165 := by
  unfold normHeightCm bodyHW165_60 normalizedUnit
  norm_num
  rw [if_neg (by decide : ¬ ("metric" = "imperial")), jsRound_165]
  norm_num

lemma normWeightKg_bodyHW : normWeightKg bodyHW165_60 = some 60 := by
  unfold normWeightKg bodyHW165_60 normalizedUnit
  norm_num
  rw [if_neg (by decide : ¬ ("metric" = "imperial")), jsRound_60]
  norm_num

/-- Claim C2. Size fallback chain: the returned size is the chart label when
the chart lookup is non-null; otherwise, when height and weight are present
(nonzero, per the code's falsy presence test), it is the BMI heuristic
`weight / (height/100)^2` mapped to S/M/L/XL/XXL; and when neither produces
a label it is exactly "M". In particular height 165 / weight 60 with no
measurements gives "M", and the empty request gives "M". -/
theorem size_fallback_chain (be wa hi hc wk : Option Rat) :
    (∀ l, pickFromChart be wa hi = some l → computeSize be wa hi hc wk = l)
    ∧ (∀ hv wv, pickFromChart be wa hi = none → hc = some hv → hv ≠ 0 →
        wk = some wv → wv ≠ 0 →
        computeSize be wa hi hc wk = bmiLabel (wv / (hv / 100) ^ 2))
    ∧ (pickFromChart be wa hi = none → sizeByHW hc wk = none →
        computeSize be wa hi hc wk = "M")
    ∧ (∀ o, (POSThandler bodyHW165_60 o).size = "M")
    ∧ (∀ o, (POSThandler bodyEmpty o).size = "M") := by
  refine ⟨?_, ?_, ?_, ?_, ?_⟩
  · intro l hl
    unfold computeSize
    rw [hl]
    simp [jsOrS, pickFromChart_ne_empty hl]
  · intro hv wv hnone hhc hhv hwk hwv
    subst hhc; subst hwk
    unfold computeSize
    rw [hnone, sizeByHW_eq hhv hwv]
    simp [jsOrS, bmiLabel_ne_empty]
  · intro hnone hhw
    unfold computeSize
    rw [hnone, hhw]
    rfl
  · intro o
    show jsOrS (pickFromChart (bustEstimate (normBustCm bodyHW165_60) (parseBra bodyHW165_60.bra))
        (normWaistCm bodyHW165_60) (normHipCm bodyHW165_60))
      (jsOrS (sizeByHW (normHeightCm bodyHW165_60) (normWeightKg bodyHW165_60)) "M") = "M"
    rw [normHeightCm_bodyHW, normWeightKg_bodyHW, sizeByHW_165_60]
    rfl
  · intro o; rfl

/-- Claim C2 witness: the BMI branch fires at height 165 / weight 60 with no
chart measurements, and the chart branch fires at bust 90 cm. -/
theorem size_fallback_chain_witness :
    computeSize none none none (some 165) (some 60)
      = bmiLabel (60 / ((165 : Rat) / 100) ^ 2)
    ∧ computeSize (some 90) none none (some 165) (some 60) = "M" := by
  constructor
  · exact (size_fallback_chain none none none (some 165) (some 60)).2.1 165 60
      rfl rfl (by norm_num) rfl (by norm_num)
  · exact (size_fallback_chain (some 90) none none (some 165) (some 60)).1 "M" pickFromChart_90

/-- Claim C4. Analytics failure atomicity: the response of the POST handler
is identical whether the analytics insert succeeds, fails (supabase-js
returns its error as a value, which the handler discards), or is skipped by
the env guard; it is always the ok-response carrying the computed size,
coverage and fit notes, and a sink failure never surfaces as an error
response. -/
theorem analytics_failure_atomicity (b : BodyIn) (o1 o2 : SbOutcome) :
    POSThandler b o1 = POSThandler b o2
    ∧ (POSThandler b o1).ok = true
    ∧ (POSThandler b o1).size =
        computeSize (bustEstimate (normBustCm b) (parseBra b.bra))
          (normWaistCm b) (normHipCm b) (normHeightCm b) (normWeightKg b)
    ∧ (POSThandler b o1).coverage =
        chooseCoverage b.activity b.modesty b.tummy_control b.style_preference
    ∧ (POSThandler b o1).fitNotes =
        fitCopySz (POSThandler b o1).size (POSThandler b o1).coverage
          b.tummy_control b.activity b.modesty := by
  refine ⟨rfl, rfl, rfl, rfl, rfl⟩

/-- Claim C5 counterexample. A bust supplied as exactly 0 normalizes to the
same result (absent) as an omitted bust, so the normalized state does not
distinguish "provided with value zero" from "not provided". -/
theorem normalization_zero_counterexample :
    normBustCm bodyBustZero = normBustCm bodyBustNone
    ∧ normBustCm bodyBustZero = none
    ∧ bodyBustZero.bust = some 0
    ∧ bodyBustNone.bust = none := by
  refine ⟨rfl, rfl, rfl, rfl⟩

/-- Claim C5 (amended). Missing numeric fields normalize to absent — never
to zero and never to a guessed default — and a nonzero value is converted
faithfully; but a value provided as exactly zero ALSO normalizes to absent
(JS falsy-check semantics), so zero is not distinguishable from omission. -/
theorem normalization_absence (b : BodyIn) :
    (b.bust = none → normBustCm b = none)
    ∧ (b.bust = some 0 → normBustCm b = none)
    ∧ (∀ v : Rat, v ≠ 0 → b.bust = some v →
        normBustCm b = some (if normalizedUnit b == "imperial" then inToCm v else v)
        ∧ normBustCm b ≠ some 0)
    ∧ (b.waist = none → normWaistCm b = none)
    ∧ (b.waist = some 0 → normWaistCm b = none)
    ∧ (b.hip = none → normHipCm b = none)
    ∧ (b.hip = some 0 → normHipCm b = none)
    ∧ (b.height = none → normHeightCm b = none)
    ∧ (b.height = some 0 → normHeightCm b = none)
    ∧ (b.weight = none → normWeightKg b = none)
    ∧ (b.weight = some 0 → normWeightKg b = none) := by
  refine ⟨?_, ?_, ?_, ?_, ?_, ?_, ?_, ?_, ?_, ?_, ?_⟩
  · intro h; unfold normBustCm; rw [h]
  · intro h; unfold normBustCm; rw [h]; simp
  · intro v hv hb
    have e : (v == 0) = false := beq_eq_false_iff_ne.mpr hv
    unfold normBustCm
    rw [hb]
    simp only [e, Bool.false_eq_true, ite_false, ne_eq, Option.some.injEq]
    refine ⟨trivial, ?_⟩
    split_ifs with hu
    · unfold inToCm
      exact fun hc => hv (by
        have h254 : (2.54 : Rat) ≠ 0 := by norm_num
        exact (mul_eq_zero.mp hc).resolve_right h254)
    · exact hv
  · intro h; unfold normWaistCm; rw [h]
  · intro h; unfold normWaistCm; rw [h]; simp
  · intro h; unfold normHipCm; rw [h]
  · intro h; unfold normHipCm; rw [h]; simp
  · intro h; unfold normHeightCm; rw [h]
  · intro h; unfold normHeightCm; rw [h]; simp
  · intro h; unfold normWeightKg; rw [h]
  · intro h; unfold normWeightKg; rw [h]; simp

/-- Claim C5 witness: a nonzero metric bust of 90 normalizes to itself and
not to zero, and an omitted bust normalizes to absent. -/
theorem normalization_absence_witness :
    (normBustCm bodyBust90 = some (if normalizedUnit bodyBust90 == "imperial" then inToCm 90 else 90)
      ∧ normBustCm bodyBust90 ≠ some 0)
    ∧ normBustCm bodyBustNone = none :=
  ⟨(normalization_absence bodyBust90).2.2.1 90 (by norm_num) rfl,
   (normalization_absence bodyBustNone).1 rfl⟩

lemma parseBra_36C : parseBra (some "36C") = ⟨some 36, some "C"⟩ := by decide

lemma cupInc_C : cupInc "C" = 7.5 := rfl

lemma bustEstimate_36C : bustEstimate none (parseBra (some "36C")) = some 110.49 := by
  rw [parseBra_36C]
  show (if (falsyR none && ((36 : Nat) != 0) && ("C" != "")) = true
      then some (((36 : Nat) : Rat) * 2.54 + cupInc "C" * 2.54) else none) = some 110.49
  rw [if_pos (by decide), cupInc_C]
  norm_num

lemma pickFromChart_11049 : pickFromChart (some 110.49) none none = some "XXL" := by
  norm_num [pickFromChart, SIZE_CHART, falsyR, mkCand, rowScore, rowDist, inRange,
    clampDist, mid, betterB, chartStep, List.foldl]
  intro h
  exact absurd h (by decide)

/-- Claim C6 counterexample. Two refutations: (1) the estimated bust for bra
"36C" is `36*2.54 + 7.5*2.54 = 110.49`, not ≈ 111.4 as the claim asserts
(off by 0.91, far outside the spec's ±0.01 tolerance); (2) the claim's
formula is not unconditional over the two-digits-plus-letters pattern: "00C"
matches the pattern (band parses to 0, cup "C"), yet the falsy check on the
band skips the estimate, leaving the bust absent instead of
`0*2.54 + 7.5*2.54 = 19.05`. -/
theorem bra_estimate_value_counterexample :
    bustEstimate none (parseBra (some "36C")) = some 110.49
    ∧ ¬ (|(110.49 : Rat) - 111.4| ≤ 1/100)
    ∧ ¬ (|(110.49 : Rat) - 111.4| ≤ 1/2)
    ∧ (110.49 : Rat) ≠ 111.4
    ∧ parseBra (some "00C") = ⟨some 0, some "C"⟩
    ∧ bustEstimate none (parseBra (some "00C")) = none
    ∧ ¬ (bustEstimate none (parseBra (some "00C"))
          = some ((0 : Rat) * 2.54 + cupInc "C" * 2.54)) := by
  refine ⟨bustEstimate_36C, ?_, ?_, by norm_num, by decide, ?_, ?_⟩
  · rw [abs_sub_comm, abs_of_nonneg (by norm_num)]
    norm_num
  · rw [abs_sub_comm, abs_of_nonneg (by norm_num)]
    norm_num
  · rw [(by decide : parseBra (some "00C") = ⟨some 0, some "C"⟩)]
    rfl
  · rw [(by decide : parseBra (some "00C") = ⟨some 0, some "C"⟩)]
    exact fun hc => Option.noConfusion hc

/-- Claim C6 (amended). Bra-string bust estimation: when no bust is otherwise
derived (falsy) and the cleaned bra string matches two digits plus letters
AND the parsed band number is nonzero (a band of "00" parses to 0, is falsy,
and skips the estimate — see "00C" below), the estimated bust is
`band * 2.54 + cupInc cup * 2.54` with the cup table A=2.5, B=5, C=7.5,
D=10, DD=12.5, E=12.5, F=15 and default 7.5 for an unrecognized cup; bra
"36C" gives band 36, cup "C" and estimated bust 110.49 (not 111.4), which
the chart lookup then classifies (as "XXL"); a present nonzero bust
suppresses the estimate; a bra string not matching the pattern yields no
band or cup and contributes nothing. -/
theorem bra_estimation (band : Nat) (cup : String) :
    (band ≠ 0 → cup ≠ "" →
      bustEstimate none ⟨some band, some cup⟩
        = some ((band : Rat) * 2.54 + cupInc cup * 2.54))
    ∧ (∀ v : Rat, v ≠ 0 → ∀ bp, bustEstimate (some v) bp = some v)
    ∧ parseBra (some "36C") = ⟨some 36, some "C"⟩
    ∧ cupInc "C" = 7.5
    ∧ bustEstimate none (parseBra (some "36C")) = some 110.49
    ∧ ((36 : Rat) * 2.54 + 7.5 * 2.54 = 110.49)
    ∧ (∀ bc : Option Rat, bustEstimate bc ⟨none, none⟩ = bc)
    ∧ (∀ bc : Option Rat, ∀ c2, bustEstimate bc ⟨none, some c2⟩ = bc)
    ∧ (∀ bc : Option Rat, ∀ b2, bustEstimate bc ⟨some b2, none⟩ = bc)
    ∧ (∀ bc : Option Rat, ∀ c2, bustEstimate bc ⟨some 0, some c2⟩ = bc)
    ∧ parseBra (some "00C") = ⟨some 0, some "C"⟩
    ∧ bustEstimate none (parseBra (some "00C")) = none
    ∧ parseBra (some "hello") = ⟨none, none⟩
    ∧ parseBra (some "365C") = ⟨none, none⟩
    ∧ parseBra (some "36") = ⟨none, none⟩
    ∧ parseBra none = ⟨none, none⟩
    ∧ cupInc "A" = 2.5 ∧ cupInc "B" = 5 ∧ cupInc "D" = 10 ∧ cupInc "DD" = 12.5
    ∧ cupInc "E" = 12.5 ∧ cupInc "F" = 15 ∧ cupInc "G" = 7.5
    ∧ (∀ o, (POSThandler bodyBra36C o).size = "XXL")
    ∧ pickFromChart (some 110.49) none none = some "XXL" := by
  refine ⟨?_, ?_, parseBra_36C, cupInc_C, bustEstimate_36C, by norm_num,
    ?_, ?_, ?_, ?_, by decide, ?_, by decide, by decide, by decide, rfl,
    rfl, rfl, rfl, rfl, rfl, rfl, rfl, ?_, pickFromChart_11049⟩
  · intro h1 h2
    unfold bustEstimate
    simp [falsyR, h1, h2]
  · intro v hv bp
    have e : (v == 0) = false := beq_eq_false_iff_ne.mpr hv
    obtain ⟨ob, oc⟩ := bp
    cases ob <;> cases oc <;> simp [bustEstimate, falsyR, e]
  · intro bc; unfold bustEstimate; rfl
  · intro bc c2; unfold bustEstimate; rfl
  · intro bc b2; unfold bustEstimate; rfl
  · intro bc c2; simp [bustEstimate]
  · rw [(by decide : parseBra (some "00C") = ⟨some 0, some "C"⟩)]
    rfl
  · intro o
    show jsOrS (pickFromChart (bustEstimate none (parseBra (some "36C"))) none none)
      (jsOrS (sizeByHW none none) "M") = "XXL"
    rw [bustEstimate_36C, pickFromChart_11049]
    rfl

/-- Claim C6 witness: the estimation formula fires at band 36 / cup "C", and
an explicit nonzero bust of 88 suppresses it. -/
theorem bra_estimation_witness :
    bustEstimate none ⟨some 36, some "C"⟩
      = some (((36 : Nat) : Rat) * 2.54 + cupInc "C" * 2.54)
    ∧ bustEstimate (some 88) ⟨some 36, some "C"⟩ = some 88 :=
  ⟨(bra_estimation 36 "C").1 (by norm_num) (by decide),
   (bra_estimation 36 "C").2.1 88 (by norm_num) ⟨some 36, some "C"⟩⟩

/-- The closing sentence of the api-variant template ("choose" without comma). -/
def apiTail : String :=
  ". For close fit choose your measured size; for relaxed fit, consider one size up."

/-- The closing sentence of the size-route template (comma after "fit"). -/
def szTail : String :=
  ". For close fit, choose your measured size; for relaxed fit, consider one size up."

/-- The optional clause as the spec words it: " with " followed by the
applicable hints joined by " & " in the fixed order tummy-control panels,
secure shoulder coverage, full coverage; empty when no hint applies. -/
def clauseSpec (t q r : Bool) : String :=
  if t && q && r then " with tummy-control panels & secure shoulder coverage & full coverage"
  else if t && q then " with tummy-control panels & secure shoulder coverage"
  else if t && r then " with tummy-control panels & full coverage"
  else if q && r then " with secure shoulder coverage & full coverage"
  else if t then " with tummy-control panels"
  else if q then " with secure shoulder coverage"
  else if r then " with full coverage"
  else ""

lemma clause_eq (t q r : Bool) :
    (if (fitHints t q r).isEmpty then ""
     else " with " ++ String.intercalate " & " (fitHints t q r)) = clauseSpec t q r := by
  cases t <;> cases q <;> cases r <;> decide

lemma fitCopy_eq (s c : String) (t : Bool) (a m : Option String) :
    fitCopy s c t a m =
      "We suggest **" ++ s ++ "** in a **" ++ c ++ "** style"
        ++ clauseSpec t (a == some "swim_class") (m == some "high" || c == "burkini")
        ++ apiTail := by
  simp only [fitCopy]
  rw [clause_eq]
  rfl

lemma fitCopySz_eq (s c : String) (t : Bool) (a m : Option String) :
    fitCopySz s c t a m =
      "We suggest **" ++ s ++ "** in a **" ++ c ++ "** style"
        ++ clauseSpec t (a == some "swim_class") (m == some "high" || c == "burkini")
        ++ szTail := by
  simp only [fitCopySz]
  rw [clause_eq]
  rfl

/-- Claim C7 counterexample. The `fitCopy` of `src/app/size/recommend/route.ts`
does not produce the claimed template: its closing sentence has a comma
("For close fit, choose"), while the claim's template reads
"For close fit choose". -/
theorem fit_copy_comma_counterexample :
    fitCopySz "M" "one-piece" false none none
      ≠ "We suggest **M** in a **one-piece** style. For close fit choose your measured size; for relaxed fit, consider one size up."
    ∧ fitCopySz "M" "one-piece" false none none
      = "We suggest **M** in a **one-piece** style. For close fit, choose your measured size; for relaxed fit, consider one size up." := by
  constructor
  · decide
  · decide

/-- Claim C7 (amended). Advice text synthesis: the api-variant `fitCopy`
produces exactly the claimed template, with the optional clause " with "
followed by the applicable hints joined by " & " in the fixed order
tummy-control panels (iff tummy-control), secure shoulder coverage (iff
activity swim_class), full coverage (iff modesty high or coverage burkini),
and omitted when no hint applies; the size-route variant produces the same
template except its closing sentence has a comma after "For close fit". The
triple tummy/swim_class/high yields all three phrases in order. -/
theorem fit_copy_template (s c : String) (t : Bool) (a m : Option String) :
    fitCopy s c t a m =
      "We suggest **" ++ s ++ "** in a **" ++ c ++ "** style"
        ++ clauseSpec t (a == some "swim_class") (m == some "high" || c == "burkini")
        ++ apiTail
    ∧ fitCopySz s c t a m =
      "We suggest **" ++ s ++ "** in a **" ++ c ++ "** style"
        ++ clauseSpec t (a == some "swim_class") (m == some "high" || c == "burkini")
        ++ szTail
    ∧ fitCopy s c true (some "swim_class") (some "high") =
      "We suggest **" ++ s ++ "** in a **" ++ c ++ "** style"
        ++ " with tummy-control panels & secure shoulder coverage & full coverage"
        ++ apiTail
    ∧ clauseSpec false false false = "" := by
  refine ⟨fitCopy_eq s c t a m, fitCopySz_eq s c t a m, ?_, rfl⟩
  exact fitCopy_eq s c true (some "swim_class") (some "high")
